import Mathlib

/-!
Verification of the BBB vote bot core: the page-state classifier and
"vote again" clicker (`bot.py`), the worker vote loop (`bot.py`), the
fleet counter callback (`browser_manager.py`), the captcha resolution
wait (`captcha_handler.py`) and the statistics persistence
(`browser_manager.py`), shallowly embedded from the Python sources.

DOM probes (`is_visible`, `inner_text`, `query_selector`, ...) are
modelled at call-site granularity: a snapshot records, for each probe
the code performs, either the value the probe returned or the fact that
it raised, mirroring the `try`/`except` structure of the source.
-/

namespace BBBVote

/-- Result of a single DOM probe call: `val a` models a normal return
value, `exn` models the probe raising an exception (to be caught by a
surrounding `try`/`except` in the Python source). -/
inductive Res (α : Type) where
  | val : α → Res α
  | exn : Res α
  deriving DecidableEq, Repr

/-- A DOM element as the bot probes it. Each field is the result of one
probe on the element: `is_visible()`, `inner_text()`,
`get_attribute("aria-label")`, `is_enabled()`, and `click()`. -/
structure Elem where
  visible : Res Bool
  text : Res String
  ariaLabel : Res (Option String)
  enabled : Res Bool
  clickOk : Res Unit
  deriving DecidableEq, Repr

/-- One page snapshot as seen through the probe calls `detect_page_state`
and `click_vote_again` perform, one field per call site:
`url` is `page.url` (a local attribute read, modelled as infallible);
`bodyText` is `inner_text('body')`;
`errorEls` is `query_selector_all('[class*="error"], ...')`;
`headingEls` is `query_selector_all('h1, h2, h3')`;
`confEls` is `query_selector_all('h1, [class*="success"], ...')`;
`voteAgainBtn1..3` are `query_selector` on the three
`button[aria-label*="Votar novamente"]`-style selectors;
`exactBtn` is `query_selector('button[aria-label="<participant>"]')`;
`ariaButtons` is `query_selector_all('button[aria-label]')`;
`h1Els` is `query_selector_all('h1')`;
`allButtons` is `query_selector_all('button')` in `click_vote_again`;
`xpathVoteAgain` is the XPath fallback query in `click_vote_again`. -/
structure Snapshot where
  url : String
  bodyText : Res String
  errorEls : Res (List Elem)
  headingEls : Res (List Elem)
  confEls : Res (List Elem)
  voteAgainBtn1 : Res (Option Elem)
  voteAgainBtn2 : Res (Option Elem)
  voteAgainBtn3 : Res (Option Elem)
  exactBtn : Res (Option Elem)
  ariaButtons : Res (List Elem)
  h1Els : Res (List Elem)
  allButtons : Res (List Elem)
  xpathVoteAgain : Res (Option Elem)
  deriving DecidableEq, Repr

/-- Helper for Python's substring test on character lists. -/
def subListChar (needle : List Char) : List Char → Bool
  | [] => needle.isEmpty
  | c :: rest => needle.isPrefixOf (c :: rest) || subListChar needle rest

/-- Python's `needle in hay` on strings: `needle` occurs in `hay` as a
contiguous substring (the empty string is in every string). -/
def pyIn (needle hay : String) : Bool := subListChar needle.data hay.data

/-- Python's `str.lower()`, modelled character-wise (ASCII case
folding, which covers every keyword the bot compares against). -/
def pyLower (s : String) : String := String.mk (s.data.map Char.toLower)

/-- The page states of `BBBVoteBot` (`STATE_VOTING`, `STATE_CONFIRMATION`,
`STATE_ERROR`, `STATE_LOGIN_REQUIRED`, `STATE_UNKNOWN`). -/
inductive PageState where
  | voting
  | confirmation
  | error
  | loginRequired
  | unknown
  deriving DecidableEq, Repr

/-- The `login_indicators` list of `detect_page_state` (URL check). -/
def loginIndicators : List String :=
  ["authx.globoid.globo.com", "accounts.google.com", "goidc.globo.com",
   "/login", "login-callback", "Fazer Login", "Sign in"]

/-- The `login_keywords` list of `detect_page_state` (body-text check). -/
def loginKeywords : List String :=
  ["fazer login", "entrar com conta globo", "escolha uma conta",
   "sign in with google", "fazer login com o google",
   "use sua conta google", "prosseguir para globo.com"]

/-- The `error_keywords` list of `detect_page_state`. -/
def errorKeywords : List String :=
  ["algo deu errado", "erro na verificação", "votação encerrada",
   "parece que você está em mais de um dispositivo",
   "estamos com muitos acessos agora", "erro na verificação do usuário"]

/-- Outcome of scanning a list of elements inside one `try` block:
`found` means an element hit (early return / flag set), `notFound` means
the loop completed without a hit, `aborted` means a probe raised and the
exception unwound the whole loop to the enclosing `except`. -/
inductive ScanOut where
  | found
  | notFound
  | aborted
  deriving DecidableEq, Repr

/-- Generic element-at-a-time scan inside one `try` block. The step
function classifies one element: `some true` is a hit, `some false` a
clean miss (the loop continues), `none` a raising probe (the whole scan
aborts). -/
def genScan (f : α → Option Bool) : List α → ScanOut
  | [] => .notFound
  | a :: rest =>
    match f a with
    | none => .aborted
    | some true => .found
    | some false => genScan f rest

/-- Loop body of the visible-text scans of `detect_page_state`:
`if await elem.is_visible(): text = await elem.inner_text();
if pred(text): <hit>` — a raising probe classifies as `none`, an
invisible element or non-matching text as a clean miss. -/
def visTextStep (pred : String → Bool) (e : Elem) : Option Bool :=
  match e.visible with
  | .exn => none
  | .val false => some false
  | .val true =>
    match e.text with
    | .exn => none
    | .val t => some (pred t)

/-- Keyword predicate of the error scan: some `error_keywords` entry
occurs in the element text lowered (`keyword in text_lower`). -/
def errTextHit (t : String) : Bool :=
  errorKeywords.any fun k => pyIn k (pyLower t)

/-- Predicate of the confirmation scan:
`"Seu voto" in text or "seu voto" in text.lower()`. -/
def confTextHit (t : String) : Bool :=
  pyIn "Seu voto" t || pyIn "seu voto" (pyLower t)

/-- Predicate of the `h1` voting fallback:
`"quem você quer eliminar" in text.lower()`. -/
def h1VotingHit (t : String) : Bool :=
  pyIn "quem você quer eliminar" (pyLower t)

/-- URL part of the login check: some `login_indicators` entry, lowered,
occurs in the lowered current URL. -/
def loginUrlDetected (s : Snapshot) : Bool :=
  loginIndicators.any fun ind => pyIn (pyLower ind) (pyLower s.url)

/-- Body-text part of the login check; a failing `inner_text('body')`
probe is caught and treated as no match. -/
def loginTextDetected (s : Snapshot) : Bool :=
  match s.bodyText with
  | .exn => false
  | .val t => loginKeywords.any fun k => pyIn k (pyLower t)

/-- The visible-error check of `detect_page_state`: scans error-styled
containers, then headings, both inside one `try` block, so an exception
anywhere (including in the container scan) leaves `has_visible_error`
false and skips the heading scan. -/
def errorDetected (s : Snapshot) : Bool :=
  match s.errorEls with
  | .exn => false
  | .val els =>
    match genScan (visTextStep errTextHit) els with
    | .found => true
    | .aborted => false
    | .notFound =>
      match s.headingEls with
      | .exn => false
      | .val hs =>
        match genScan (visTextStep errTextHit) hs with
        | .found => true
        | .notFound => false
        | .aborted => false

/-- The confirmation-text check: scans `h1, [class*="success"], ...`
elements for a "Seu voto" phrase inside one `try` block. -/
def confTextDetected (s : Snapshot) : Bool :=
  match s.confEls with
  | .exn => false
  | .val els =>
    match genScan (visTextStep confTextHit) els with
    | .found => true
    | .notFound => false
    | .aborted => false

/-- One "Votar Novamente" selector check: the button must be returned and
visible; a raising probe is caught and the next selector is tried. -/
def voteAgainSel (b : Res (Option Elem)) : Bool :=
  match b with
  | .val (some e) =>
    match e.visible with
    | .val true => true
    | .val false => false
    | .exn => false
  | .val none => false
  | .exn => false

/-- The "Votar Novamente" button check over the three selectors, in the
order the source tries them. -/
def voteAgainDetected (s : Snapshot) : Bool :=
  voteAgainSel s.voteAgainBtn1 || voteAgainSel s.voteAgainBtn2 ||
    voteAgainSel s.voteAgainBtn3

/-- Loop body of the voting aria-label fallback over
`button[aria-label]` elements: a visible button whose `aria-label`
contains the participant name (case-sensitive `in`) is a hit; an
invisible button, a missing attribute or a non-matching label is a
clean miss; a raising probe classifies as `none`. -/
def ariaStep (name : String) (b : Elem) : Option Bool :=
  match b.visible with
  | .exn => none
  | .val false => some false
  | .val true =>
    match b.ariaLabel with
    | .exn => none
    | .val none => some false
    | .val (some al) => some (pyIn name al)

/-- The fallback part of the voting check: the aria-label scan, then the
`h1` heading scan. Both exact and aria scans share one `try` block, with
the `h1` part nested in its own `try`, so an aborting aria scan skips
everything while an aborting `h1` scan only loses the `h1` result. -/
def votingFallback (s : Snapshot) (name : String) : Bool :=
  match s.ariaButtons with
  | .exn => false
  | .val bs =>
    match genScan (ariaStep name) bs with
    | .found => true
    | .aborted => false
    | .notFound =>
      match s.h1Els with
      | .exn => false
      | .val hs =>
        match genScan (visTextStep h1VotingHit) hs with
        | .found => true
        | .notFound => false
        | .aborted => false

/-- The voting check of `detect_page_state`: exact aria-label button
(visibility only — `is_enabled` is never consulted here), falling back
to `votingFallback` when the exact button is absent or invisible; a
raising exact-button probe aborts the whole check. -/
def votingDetected (s : Snapshot) (name : String) : Bool :=
  match s.exactBtn with
  | .exn => false
  | .val none => votingFallback s name
  | .val (some e) =>
    match e.visible with
    | .exn => false
    | .val true => true
    | .val false => votingFallback s name

/-- The page-state classifier `BBBVoteBot.detect_page_state`: login URL
check, login body-text check, visible-error check, confirmation-text
check, "Votar Novamente" button check, voting check, in source order
with early return on the first match; `STATE_UNKNOWN` otherwise. -/
def detectPageState (s : Snapshot) (name : String) : PageState :=
  if loginUrlDetected s then .loginRequired
  else if loginTextDetected s then .loginRequired
  else if errorDetected s then .error
  else if confTextDetected s then .confirmation
  else if voteAgainDetected s then .confirmation
  else if votingDetected s name then .voting
  else .unknown

/-- Loop body of the text fallback of `click_vote_again`: the first
button whose inner text contains both "votar" and "novamente" (lowered)
is clicked on the spot — with no visibility or enabled probe. The loop
and the click run inside one `try` block, so a raising `inner_text` or
`click` aborts the stage (`none`); `some true` means clicked. -/
def voteAgainTextStep (b : Elem) : Option Bool :=
  match b.text with
  | .exn => none
  | .val t =>
    if pyIn "votar" (pyLower t) && pyIn "novamente" (pyLower t) then
      match b.clickOk with
      | .val _ => some true
      | .exn => none
    else some false

/-- One selector stage of `click_vote_again`: if the query returns a
button it is clicked immediately — no visibility or enabled probe is
made; a raising query or click is caught and the next stage is tried. -/
def voteAgainClickSel (b : Res (Option Elem)) : Bool :=
  match b with
  | .val (some e) =>
    match e.clickOk with
    | .val _ => true
    | .exn => false
  | .val none => false
  | .exn => false

/-- The XPath fallback of `click_vote_again`: click the query result if
any; exceptions are caught and fall through to `return False`. -/
def voteAgainClickXPath (s : Snapshot) : Bool :=
  voteAgainClickSel s.xpathVoteAgain

/-- `BBBVoteBot.click_vote_again`: three aria-label selectors, then the
button-text scan, then the XPath fallback; returns `true` as soon as a
click call succeeds and `false` when everything is exhausted. -/
def clickVoteAgain (s : Snapshot) : Bool :=
  if voteAgainClickSel s.voteAgainBtn1 then true
  else if voteAgainClickSel s.voteAgainBtn2 then true
  else if voteAgainClickSel s.voteAgainBtn3 then true
  else
    match s.allButtons with
    | .exn => voteAgainClickXPath s
    | .val bs =>
      match genScan voteAgainTextStep bs with
      | .found => true
      | .notFound => voteAgainClickXPath s
      | .aborted => voteAgainClickXPath s

/-- Per-tab worker state of `BBBVoteBot.run_vote_loop`: `vote_count`,
`last_confirmation_detected` and the loop-local `consecutive_errors`. -/
structure Worker where
  voteCount : Nat
  lastConfirmationDetected : Bool
  consecutiveErrors : Nat
  deriving DecidableEq, Repr

/-- A fresh bot as built by `BBBVoteBot.__init__`: `vote_count = 0`,
`last_confirmation_detected = False`, no consecutive errors yet. -/
def Worker.init : Worker :=
  { voteCount := 0, lastConfirmationDetected := false, consecutiveErrors := 0 }

/-- Environment outcomes of one worker-loop iteration that reaches the
state dispatch: the classified page state, whether `vote()` succeeded
(only consulted in the Voting branch) and whether `click_vote_again()`
returned `True` (only consulted in the Confirmation branch). -/
structure Iter where
  state : PageState
  voteOk : Bool
  clickOk : Bool
  deriving DecidableEq, Repr

/-- One iteration of `run_vote_loop` over the worker's counters, from
the classified state to the end of the iteration. The source resets
`consecutive_errors` whenever the state is not `STATE_ERROR`; the
Voting branch clears `last_confirmation_detected`; the Confirmation
branch counts the vote only when the flag is unset, sets the flag, and
clears it again only when `click_vote_again` succeeds; the error branch
bumps `consecutive_errors` and wraps it at the threshold of 5. Sleeps,
reloads and the login wait sub-loop do not touch these counters. -/
def stepWorker (w : Worker) (it : Iter) : Worker :=
  let w := if it.state ≠ PageState.error then { w with consecutiveErrors := 0 } else w
  match it.state with
  | .voting =>
    if w.lastConfirmationDetected then { w with lastConfirmationDetected := false } else w
  | .confirmation =>
    let w :=
      if ¬ w.lastConfirmationDetected then
        { w with voteCount := w.voteCount + 1, lastConfirmationDetected := true }
      else w
    if it.clickOk then { w with lastConfirmationDetected := false } else w
  | .loginRequired => w
  | .error =>
    let c := w.consecutiveErrors + 1
    { w with consecutiveErrors := if 5 ≤ c then 0 else c }
  | .unknown => w

/-- A sequence of worker-loop iterations. -/
def runWorker (w : Worker) (its : List Iter) : Worker :=
  its.foldl stepWorker w

/-- The fleet coordinator's shared counter state: `total_votes` and the
per-tab `bot.vote_count` list. -/
structure FleetState where
  totalVotes : Nat
  counts : List Nat
  deriving DecidableEq, Repr

/-- `BrowserManager` startup state: `total_votes` is seeded from the
persisted counter file (`_load_vote_counter`) while every bot starts
with `vote_count = 0`. -/
def FleetState.init (seed numTabs : Nat) : FleetState :=
  { totalVotes := seed, counts := List.replicate numTabs 0 }

/-- Increment the `i`-th worker's `vote_count` (the bot-side increment
in the Confirmation branch, before the callback fires). -/
def bumpCount : List Nat → Nat → List Nat
  | [], _ => []
  | c :: rest, 0 => (c + 1) :: rest
  | c :: rest, i + 1 => c :: bumpCount rest i

/-- `BrowserManager._on_vote_completed`, the body inside the vote lock:
`total_votes` is replaced by the sum of the per-tab counts — never
incremented by a delta. -/
def onVoteCompleted (fs : FleetState) : FleetState :=
  { fs with totalVotes := fs.counts.sum }

/-- Interleaved fleet events: a worker incrementing its own count, or a
completion callback running the handler under the lock. -/
inductive FleetEvent where
  | incr : Nat → FleetEvent
  | complete : FleetEvent
  deriving DecidableEq, Repr

/-- One fleet event applied to the shared state. -/
def fleetStep (fs : FleetState) : FleetEvent → FleetState
  | .incr i => { fs with counts := bumpCount fs.counts i }
  | .complete => onVoteCompleted fs

/-- A sequence of interleaved fleet events. -/
def fleetRun (fs : FleetState) (evs : List FleetEvent) : FleetState :=
  evs.foldl fleetStep fs

/-- One persisted session record of `votos_estatisticas.json`. -/
structure Session where
  dataInicio : String
  dataFim : String
  votosNaSessao : Int
  votosPorAba : List Nat
  totalAoFinal : Nat
  participante : String
  numeroAbas : Nat
  deriving DecidableEq, Repr

/-- The persisted statistics object: historical maximum and the list of
session records. -/
structure Stats where
  totalHistorico : Nat
  sessoes : List Session
  deriving DecidableEq, Repr

/-- Replace the first session whose `data_inicio` equals `start` with
`info` (the `for i, s in enumerate(sessions)` update with `break`). -/
def replaceFirstSession : List Session → String → Session → List Session
  | [], _, _ => []
  | s :: rest, start, info =>
    if s.dataInicio == start then info :: rest
    else s :: replaceFirstSession rest start info

/-- The session record `_save_vote_stats` builds for the current session. -/
def mkSessionInfo (totalVotes sessionStartVotes : Nat) (votesPerTab : List Nat)
    (startStr nowStr participant : String) : Session :=
  { dataInicio := startStr
    dataFim := nowStr
    votosNaSessao := (totalVotes : Int) - (sessionStartVotes : Int)
    votosPorAba := votesPerTab
    totalAoFinal := totalVotes
    participante := participant
    numeroAbas := votesPerTab.length }

/-- `BrowserManager._save_vote_stats` on the loaded statistics:
`total_historico` becomes the max of its old value and `total_votes`;
if the session has votes and a start time, its record is appended, or
replaces the existing record with the same `data_inicio`; the list is
then truncated to its last 100 entries. -/
def saveVoteStats (stats : Stats) (totalVotes sessionStartVotes : Nat)
    (votesPerTab : List Nat) (sessionStartTime : Option String)
    (nowStr participant : String) : Stats :=
  let sessionVotes := votesPerTab.sum
  let votesThisSession : Int := (totalVotes : Int) - (sessionStartVotes : Int)
  let stats := { stats with totalHistorico := max stats.totalHistorico totalVotes }
  match sessionStartTime with
  | none => stats
  | some start =>
    if votesThisSession > 0 ∨ sessionVotes > 0 then
      let info := mkSessionInfo totalVotes sessionStartVotes votesPerTab start nowStr participant
      let sessions := stats.sessoes
      let sessions :=
        if sessions.any (fun s => s.dataInicio == start) then
          replaceFirstSession sessions start info
        else sessions ++ [info]
      let sessions :=
        if sessions.length > 100 then sessions.drop (sessions.length - 100) else sessions
      { stats with sessoes := sessions }
    else stats

/-- A captcha response textarea, probed via `input_value()`. -/
structure TArea where
  inputValue : Res String
  deriving DecidableEq, Repr

/-- A captcha iframe element: its `data-hcaptcha-response` attribute, its
visibility, and its bounding-box height (`none` models a null box). -/
structure IFrame where
  dataResp : Res (Option String)
  visible : Res Bool
  boxHeight : Res (Option Nat)
  deriving DecidableEq, Repr

/-- One polling iteration of `wait_for_captcha_solution` as seen through
its probe calls, one field per call site: `focusIframe` is the
`iframe[title*="hCaptcha"]` query of the focus branch, `bringOk` whether
`page.bring_to_front()` succeeds inside `_focus_tab_for_manual_solution`
(on failure its 0.5 s settle sleep is skipped), `taName` the
`textarea[name="h-captcha-response"]` query, `taById` the
`textarea[id*="h-captcha-response"]` query, `widgetIframes` the
`iframe[data-hcaptcha-widget-id]` query, `bodyText` the first
`inner_text('body')`, `titleIframe` the visibility-check
`iframe[title*="hCaptcha"]` query, and `bodyTextAfterSleep` the body
text re-read after the extra 1 s sleep of the invisible-iframe branch. -/
structure CapPoll where
  focusIframe : Res (Option IFrame)
  bringOk : Bool
  taName : Res (Option TArea)
  taById : Res (List TArea)
  widgetIframes : Res (List IFrame)
  bodyText : Res String
  titleIframe : Res (Option IFrame)
  bodyTextAfterSleep : Res String
  deriving DecidableEq, Repr

/-- Whether the focus branch fires: the hCaptcha iframe is returned with
a bounding box higher than 200 px; probe exceptions are swallowed. -/
def focusCond (p : CapPoll) : Bool :=
  match p.focusIframe with
  | .val (some f) =>
    match f.boxHeight with
    | .val (some h) => 200 < h
    | _ => false
  | _ => false

/-- Whether a list of textareas yields a non-empty token; each
`input_value()` runs in its own `try` so a raising probe just moves on. -/
def taListToken : List TArea → Bool
  | [] => false
  | ta :: rest =>
    match ta.inputValue with
    | .val v => if v.length > 0 then true else taListToken rest
    | .exn => taListToken rest

/-- Whether a list of widget iframes yields a non-empty
`data-hcaptcha-response`; per-element `try` as in the source. -/
def iframeListToken : List IFrame → Bool
  | [] => false
  | f :: rest =>
    match f.dataResp with
    | .val (some r) => if r.length > 0 then true else iframeListToken rest
    | _ => iframeListToken rest

/-- Success-text predicate of the captcha wait:
`"Seu voto" in page_text or "seu voto foi registrado" in page_text.lower()`. -/
def captchaBodyHit (t : String) : Bool :=
  pyIn "Seu voto" t || pyIn "seu voto foi registrado" (pyLower t)

/-- First check: the named textarea's token. `some true` means a
non-empty token was read, `some false` a clean "no token yet", `none`
a raising probe — which unwinds the whole outer `try` of the iteration,
so the remaining checks of this iteration are skipped. -/
def tokenTaName (p : CapPoll) : Option Bool :=
  match p.taName with
  | .exn => none
  | .val none => some false
  | .val (some ta) =>
    match ta.inputValue with
    | .exn => none
    | .val v => some (v.length != 0)

/-- Second check: any id-matched textarea's token (the per-element
probes have their own `try`, but the query itself raising unwinds the
outer `try`). -/
def tokenTaById (p : CapPoll) : Option Bool :=
  match p.taById with
  | .exn => none
  | .val tas => some (taListToken tas)

/-- Third check: any widget iframe's `data-hcaptcha-response`. -/
def tokenWidget (p : CapPoll) : Option Bool :=
  match p.widgetIframes with
  | .exn => none
  | .val ifs => some (iframeListToken ifs)

/-- Fourth check: success text in the page body. This one runs in its
own inner `try`, so a raising `inner_text` is just "no match" and the
iteration continues. -/
def textSuccess (p : CapPoll) : Bool :=
  match p.bodyText with
  | .exn => false
  | .val t => captchaBodyHit t

/-- Fifth check: if the hCaptcha iframe is found and probed invisible,
sleep 1 s (10 ds of extra time) and re-read the body looking for
"Seu voto"; the re-read runs in an inner `try`. A raising query or
visibility probe unwinds the outer `try` with no extra sleep. -/
def gateInvisibleCheck (p : CapPoll) : Bool × Nat :=
  match p.titleIframe with
  | .exn => (false, 0)
  | .val none => (false, 0)
  | .val (some f) =>
    match f.visible with
    | .exn => (false, 0)
    | .val true => (false, 0)
    | .val false =>
      match p.bodyTextAfterSleep with
      | .val t2 => (pyIn "Seu voto" t2, 10)
      | .exn => (false, 10)

/-- The resolution checks of one iteration of `wait_for_captcha_solution`
in source order, all inside one outer `try` (whose `except` just logs and
falls through to the poll sleep, hence `none` results become
`(false, 0)`). Returns whether a resolution marker was found and how many
deciseconds of extra in-loop sleeping the iteration performed. -/
def iterCheck (p : CapPoll) : Bool × Nat :=
  match tokenTaName p with
  | none => (false, 0)
  | some true => (true, 0)
  | some false =>
    match tokenTaById p with
    | none => (false, 0)
    | some true => (true, 0)
    | some false =>
      match tokenWidget p with
      | none => (false, 0)
      | some true => (true, 0)
      | some false =>
        if textSuccess p then (true, 0)
        else gateInvisibleCheck p

/-- Deciseconds the focus branch spends in one iteration: 5 ds (the
0.5 s settle sleep of `_focus_tab_for_manual_solution`, modelled at its
maximum — it is skipped when `bring_to_front` raises) when the branch
fires for the first time, 0 otherwise. -/
def focusDelay (p : CapPoll) (focused : Bool) : Nat :=
  if !focused && focusCond p then (if p.bringOk then 5 else 0) else 0

/-- Fuel-indexed polling loop of `wait_for_captcha_solution`. Time is in
deciseconds, probes are instantaneous, and elapsed time advances by the
explicit in-loop sleeps: 10 ds per trailing poll sleep, 10 ds for the
invisible-iframe re-check sleep, and the one-time focus settle sleep.
`timeoutDs` is the handler's timeout in deciseconds; the Python loop is
unbounded, fuel is only a recursion bound shown sufficient in the
theorems. Returns the source's boolean result and the elapsed time at
the return. -/
def waitAux (polls : Nat → CapPoll) (timeoutDs : Nat) :
    Nat → Nat → Nat → Bool → Bool × Nat
  | 0, _, elapsed, _ => (false, elapsed)
  | fuel + 1, n, elapsed, focused =>
    if timeoutDs < elapsed then (false, elapsed)
    else
      let p := polls n
      let fd := focusDelay p focused
      match iterCheck p with
      | (true, extra) => (true, elapsed + fd + extra)
      | (false, extra) =>
        waitAux polls timeoutDs fuel (n + 1) (elapsed + fd + extra + 10)
          (focused || focusCond p)

/-- `CaptchaHandler.wait_for_captcha_solution` with timeout `t` seconds
under the decisecond time model, with enough fuel for the whole wait. -/
def waitForCaptchaSolution (polls : Nat → CapPoll) (t : Nat) : Bool × Nat :=
  waitAux polls (10 * t) (t + 2) 0 0 false

/-- No resolution marker in one poll: every token probe raises or yields
an empty token, the body text raises or lacks the success phrases, and
the re-read after the invisible-iframe sleep raises or lacks "Seu voto".
Probe exceptions count as "no marker", matching the handler's treatment
of transient errors as "not yet resolved". -/
def noMarker (p : CapPoll) : Bool :=
  (match p.taName with
   | .val (some ta) =>
     match ta.inputValue with
     | .val v => v.length == 0
     | .exn => true
   | _ => true) &&
  (match p.taById with
   | .val tas => !taListToken tas
   | .exn => true) &&
  (match p.widgetIframes with
   | .val ifs => !iframeListToken ifs
   | .exn => true) &&
  (match p.bodyText with
   | .val t => !captchaBodyHit t
   | .exn => true) &&
  (match p.bodyTextAfterSleep with
   | .val t2 => !pyIn "Seu voto" t2
   | .exn => true)

/-- Specification view of a scan: some element is a clean hit and every
element before it is a clean miss — in particular no probe on the hit or
on any earlier element raises. -/
def FirstHit (f : α → Option Bool) (l : List α) : Prop :=
  ∃ pre e post, l = pre ++ e :: post ∧ f e = some true ∧ ∀ x ∈ pre, f x = some false

/-- Specification view of a completed scan with no hit: every element is
a clean miss. -/
def AllMiss (f : α → Option Bool) (l : List α) : Prop :=
  ∀ x ∈ l, f x = some false

/-- Specification of the login test of the classifier: a login indicator
occurs in the URL, or the body text is successfully read and contains a
login keyword. -/
def specLogin (s : Snapshot) : Prop :=
  loginUrlDetected s = true ∨
    ∃ t, s.bodyText = Res.val t ∧ (loginKeywords.any fun k => pyIn k (pyLower t)) = true

/-- Specification of the visible-error test: the error-styled container
scan cleanly hits, or it cleanly misses throughout and the heading scan
cleanly hits. -/
def specError (s : Snapshot) : Prop :=
  (∃ els, s.errorEls = Res.val els ∧ FirstHit (visTextStep errTextHit) els) ∨
    ∃ els hs, s.errorEls = Res.val els ∧ AllMiss (visTextStep errTextHit) els ∧
      s.headingEls = Res.val hs ∧ FirstHit (visTextStep errTextHit) hs

/-- Specification of the confirmation test: a success element cleanly
hits the "Seu voto" scan, or one of the three "Votar Novamente"
selectors returns a button probed visible. -/
def specConfirmation (s : Snapshot) : Prop :=
  (∃ els, s.confEls = Res.val els ∧ FirstHit (visTextStep confTextHit) els) ∨
    ∃ e, (s.voteAgainBtn1 = Res.val (some e) ∨ s.voteAgainBtn2 = Res.val (some e) ∨
      s.voteAgainBtn3 = Res.val (some e)) ∧ e.visible = Res.val true

/-- The exact-button query cleanly missed: no button, or a button probed
invisible. -/
def ExactMiss (s : Snapshot) : Prop :=
  s.exactBtn = Res.val none ∨ ∃ e, s.exactBtn = Res.val (some e) ∧ e.visible = Res.val false

/-- Specification of the voting fallback: the aria-label scan cleanly
hits, or it cleanly misses throughout and the `h1` scan cleanly hits. -/
def specVotingFallback (s : Snapshot) (name : String) : Prop :=
  (∃ bs, s.ariaButtons = Res.val bs ∧ FirstHit (ariaStep name) bs) ∨
    (∃ bs, s.ariaButtons = Res.val bs ∧ AllMiss (ariaStep name) bs) ∧
      ∃ hs, s.h1Els = Res.val hs ∧ FirstHit (visTextStep h1VotingHit) hs

/-- Specification of the voting test: the exact-label button is returned
and probed visible, or that query cleanly misses and a fallback cleanly
hits. -/
def specVoting (s : Snapshot) (name : String) : Prop :=
  (∃ e, s.exactBtn = Res.val (some e) ∧ e.visible = Res.val true) ∨
    ExactMiss s ∧ specVotingFallback s name

/-- A snapshot of an idle page: nothing matches and no probe raises. -/
def emptySnapshot : Snapshot :=
  { url := "https://votacao.example"
    bodyText := Res.val ""
    errorEls := Res.val []
    headingEls := Res.val []
    confEls := Res.val []
    voteAgainBtn1 := Res.val none
    voteAgainBtn2 := Res.val none
    voteAgainBtn3 := Res.val none
    exactBtn := Res.val none
    ariaButtons := Res.val []
    h1Els := Res.val []
    allButtons := Res.val []
    xpathVoteAgain := Res.val none }

/-- A visible, enabled button labeled "Alice". -/
def aliceEnabledBtn : Elem :=
  { visible := Res.val true, text := Res.val "Alice"
    ariaLabel := Res.val (some "Alice"), enabled := Res.val true
    clickOk := Res.val () }

/-- A visible but disabled button labeled "Alice". -/
def aliceDisabledBtn : Elem :=
  { visible := Res.val true, text := Res.val "Alice"
    ariaLabel := Res.val (some "Alice"), enabled := Res.val false
    clickOk := Res.val () }

/-- Snapshot for the login-priority witness: the tab sits on a Google
login URL while a visible, enabled voting control for the target label
is still in the DOM. -/
def snapLoginAndVoting : Snapshot :=
  { emptySnapshot with
    url := "https://accounts.google.com/signin"
    exactBtn := Res.val (some aliceEnabledBtn) }

/-- Snapshot whose only label-matching control is visible but disabled,
with no login, error or confirmation markers. -/
def snapDisabledAlice : Snapshot :=
  { emptySnapshot with exactBtn := Res.val (some aliceDisabledBtn) }

/-- Snapshot with a visible, enabled control labeled exactly "Alice" and
no login, error or confirmation markers. -/
def snapEnabledAlice : Snapshot :=
  { emptySnapshot with exactBtn := Res.val (some aliceEnabledBtn) }

/-- An invisible, disabled "Votar Novamente" button whose click call
nevertheless succeeds. -/
def hiddenVoteAgainBtn : Elem :=
  { visible := Res.val false, text := Res.val "Votar Novamente"
    ariaLabel := Res.val (some "Votar novamente"), enabled := Res.val false
    clickOk := Res.val () }

/-- Snapshot where the first "Votar Novamente" selector returns an
invisible, disabled button. -/
def snapHiddenVoteAgain : Snapshot :=
  { emptySnapshot with voteAgainBtn1 := Res.val (some hiddenVoteAgainBtn) }

/-- A poll in which the hCaptcha iframe is present but invisible and no
resolution marker exists: each iteration takes the extra 1 s re-check
sleep of the invisible-iframe branch. -/
def invisibleGatePoll : CapPoll :=
  { focusIframe := Res.val none
    bringOk := true
    taName := Res.val none
    taById := Res.val []
    widgetIframes := Res.val []
    bodyText := Res.val ""
    titleIframe := Res.val (some
      { dataResp := Res.val none, visible := Res.val false, boxHeight := Res.val none })
    bodyTextAfterSleep := Res.val "" }

/-- A poll in which every probe raises: the transient-error case. -/
def allRaisingPoll : CapPoll :=
  { focusIframe := Res.exn
    bringOk := true
    taName := Res.exn
    taById := Res.exn
    widgetIframes := Res.exn
    bodyText := Res.exn
    titleIframe := Res.exn
    bodyTextAfterSleep := Res.exn }

theorem FirstHit_nil {α : Type} (f : α → Option Bool) : ¬ FirstHit f [] := by
  rintro ⟨pre, e, post, h, -, -⟩
  cases pre <;> simp_all

theorem not_FirstHit_cons_none {α : Type} {f : α → Option Bool} {a : α} {rest : List α}
    (hf : f a = none) : ¬ FirstHit f (a :: rest) := by
  rintro ⟨pre, e, post, heq, hm, hp⟩
  cases pre with
  | nil =>
    obtain ⟨rfl, rfl⟩ : a = e ∧ rest = post := by simpa using heq
    rw [hf] at hm
    exact Option.noConfusion hm
  | cons x pre =>
    obtain ⟨rfl, -⟩ : a = x ∧ rest = pre ++ e :: post := by simpa using heq
    have hx := hp a (List.mem_cons_self a pre)
    rw [hf] at hx
    exact Option.noConfusion hx

theorem FirstHit_cons_hit {α : Type} {f : α → Option Bool} {a : α} {rest : List α}
    (hf : f a = some true) : FirstHit f (a :: rest) :=
  ⟨[], a, rest, rfl, hf, by simp⟩

theorem FirstHit_cons_iff {α : Type} {f : α → Option Bool} {a : α} {rest : List α}
    (hf : f a = some false) : FirstHit f (a :: rest) ↔ FirstHit f rest := by
  constructor
  · rintro ⟨pre, e, post, heq, hm, hp⟩
    cases pre with
    | nil =>
      obtain ⟨rfl, rfl⟩ : a = e ∧ rest = post := by simpa using heq
      rw [hf] at hm
      simp at hm
    | cons x pre =>
      obtain ⟨rfl, hrest⟩ : a = x ∧ rest = pre ++ e :: post := by simpa using heq
      exact ⟨pre, e, post, hrest, hm, fun y hy => hp y (List.mem_cons_of_mem _ hy)⟩
  · rintro ⟨pre, e, post, heq, hm, hp⟩
    refine ⟨a :: pre, e, post, by rw [heq]; rfl, hm, ?_⟩
    intro x hx
    rcases List.mem_cons.mp hx with rfl | hx
    · exact hf
    · exact hp x hx

theorem genScan_found_iff {α : Type} (f : α → Option Bool) (l : List α) :
    genScan f l = ScanOut.found ↔ FirstHit f l := by
  induction l with
  | nil =>
    constructor
    · intro h; simp [genScan] at h
    · intro h; exact absurd h (FirstHit_nil f)
  | cons a rest ih =>
    rw [genScan]
    cases hf : f a with
    | none =>
      constructor
      · intro h; simp at h
      · intro h; exact absurd h (not_FirstHit_cons_none hf)
    | some b =>
      cases b with
      | true =>
        constructor
        · intro _; exact FirstHit_cons_hit hf
        · intro _; rfl
      | false =>
        rw [ih, FirstHit_cons_iff hf]

theorem genScan_notFound_iff {α : Type} (f : α → Option Bool) (l : List α) :
    genScan f l = ScanOut.notFound ↔ AllMiss f l := by
  induction l with
  | nil =>
    simp [genScan, AllMiss]
  | cons a rest ih =>
    rw [genScan]
    cases hf : f a with
    | none =>
      constructor
      · intro h; simp at h
      · intro h
        have := h a (List.mem_cons_self a rest)
        rw [hf] at this
        exact Option.noConfusion this
    | some b =>
      cases b with
      | true =>
        constructor
        · intro h; simp at h
        · intro h
          have := h a (List.mem_cons_self a rest)
          rw [hf] at this
          simp at this
      | false =>
        rw [ih]
        unfold AllMiss
        rw [List.forall_mem_cons]
        simp [hf]

theorem not_FirstHit_of_aborted {α : Type} {f : α → Option Bool} {l : List α}
    (hg : genScan f l = ScanOut.aborted) : ¬ FirstHit f l := by
  intro h
  have := (genScan_found_iff f l).mpr h
  rw [this] at hg
  exact ScanOut.noConfusion hg

theorem not_AllMiss_of_aborted {α : Type} {f : α → Option Bool} {l : List α}
    (hg : genScan f l = ScanOut.aborted) : ¬ AllMiss f l := by
  intro h
  have := (genScan_notFound_iff f l).mpr h
  rw [this] at hg
  exact ScanOut.noConfusion hg

theorem not_FirstHit_of_notFound {α : Type} {f : α → Option Bool} {l : List α}
    (hg : genScan f l = ScanOut.notFound) : ¬ FirstHit f l := by
  intro h
  have := (genScan_found_iff f l).mpr h
  rw [this] at hg
  exact ScanOut.noConfusion hg

theorem bfalse_iff (p : Prop) : ((false = true) ↔ p) ↔ ¬ p := by simp

theorem btrue_iff (p : Prop) : ((true = true) ↔ p) ↔ p := by simp

theorem loginTextDetected_iff (s : Snapshot) :
    loginTextDetected s = true ↔
      ∃ t, s.bodyText = Res.val t ∧ (loginKeywords.any fun k => pyIn k (pyLower t)) = true := by
  unfold loginTextDetected
  cases h : s.bodyText with
  | exn => simp
  | val t => simp

theorem errorDetected_iff (s : Snapshot) : errorDetected s = true ↔ specError s := by
  unfold errorDetected specError
  split
  next he =>
    rw [bfalse_iff]
    rintro (⟨els, h1, -⟩ | ⟨els, hs, h1, -⟩) <;> rw [he] at h1 <;> exact Res.noConfusion h1
  next els he =>
    split
    next hg =>
      rw [btrue_iff]
      exact Or.inl ⟨els, he, (genScan_found_iff _ els).mp hg⟩
    next hg =>
      rw [bfalse_iff]
      rintro (⟨els2, h1, hfh⟩ | ⟨els2, hs, h1, hmiss, -⟩) <;> rw [he] at h1 <;>
        obtain rfl := Res.val.inj h1
      · exact not_FirstHit_of_aborted hg hfh
      · exact not_AllMiss_of_aborted hg hmiss
    next hg =>
      split
      next hh =>
        rw [bfalse_iff]
        rintro (⟨els2, h1, hfh⟩ | ⟨els2, hs, h1, hmiss, h2, -⟩)
        · rw [he] at h1
          obtain rfl := Res.val.inj h1
          exact not_FirstHit_of_notFound hg hfh
        · rw [hh] at h2
          exact Res.noConfusion h2
      next hs hh =>
        split
        next hgh =>
          rw [btrue_iff]
          exact Or.inr ⟨els, hs, he, (genScan_notFound_iff _ els).mp hg, hh,
            (genScan_found_iff _ hs).mp hgh⟩
        next hgh =>
          rw [bfalse_iff]
          rintro (⟨els2, h1, hfh⟩ | ⟨els2, hs2, h1, hmiss, h2, hfh⟩)
          · rw [he] at h1
            obtain rfl := Res.val.inj h1
            exact not_FirstHit_of_notFound hg hfh
          · rw [hh] at h2
            obtain rfl := Res.val.inj h2
            exact not_FirstHit_of_notFound hgh hfh
        next hgh =>
          rw [bfalse_iff]
          rintro (⟨els2, h1, hfh⟩ | ⟨els2, hs2, h1, hmiss, h2, hfh⟩)
          · rw [he] at h1
            obtain rfl := Res.val.inj h1
            exact not_FirstHit_of_notFound hg hfh
          · rw [hh] at h2
            obtain rfl := Res.val.inj h2
            exact not_FirstHit_of_aborted hgh hfh

theorem confTextDetected_iff (s : Snapshot) :
    confTextDetected s = true ↔
      ∃ els, s.confEls = Res.val els ∧ FirstHit (visTextStep confTextHit) els := by
  unfold confTextDetected
  split
  next he =>
    rw [bfalse_iff]
    rintro ⟨els, h1, -⟩
    rw [he] at h1
    exact Res.noConfusion h1
  next els he =>
    split
    next hg =>
      rw [btrue_iff]
      exact ⟨els, he, (genScan_found_iff _ els).mp hg⟩
    next hg =>
      rw [bfalse_iff]
      rintro ⟨els2, h1, hfh⟩
      rw [he] at h1
      obtain rfl := Res.val.inj h1
      exact not_FirstHit_of_notFound hg hfh
    next hg =>
      rw [bfalse_iff]
      rintro ⟨els2, h1, hfh⟩
      rw [he] at h1
      obtain rfl := Res.val.inj h1
      exact not_FirstHit_of_aborted hg hfh

theorem voteAgainSel_iff (b : Res (Option Elem)) :
    voteAgainSel b = true ↔ ∃ e, b = Res.val (some e) ∧ e.visible = Res.val true := by
  unfold voteAgainSel
  cases b with
  | exn => simp
  | val ob =>
    cases ob with
    | none => simp
    | some e =>
      cases hv : e.visible with
      | exn => simp [hv]
      | val v => cases v <;> simp [hv]

theorem voteAgainDetected_iff (s : Snapshot) :
    voteAgainDetected s = true ↔
      ∃ e, (s.voteAgainBtn1 = Res.val (some e) ∨ s.voteAgainBtn2 = Res.val (some e) ∨
        s.voteAgainBtn3 = Res.val (some e)) ∧ e.visible = Res.val true := by
  unfold voteAgainDetected
  rw [Bool.or_eq_true, Bool.or_eq_true, voteAgainSel_iff, voteAgainSel_iff, voteAgainSel_iff]
  constructor
  · rintro ((⟨e, h1, h2⟩ | ⟨e, h1, h2⟩) | ⟨e, h1, h2⟩)
    · exact ⟨e, Or.inl h1, h2⟩
    · exact ⟨e, Or.inr (Or.inl h1), h2⟩
    · exact ⟨e, Or.inr (Or.inr h1), h2⟩
  · rintro ⟨e, (h1 | h1 | h1), h2⟩
    · exact Or.inl (Or.inl ⟨e, h1, h2⟩)
    · exact Or.inl (Or.inr ⟨e, h1, h2⟩)
    · exact Or.inr ⟨e, h1, h2⟩

theorem votingFallback_iff (s : Snapshot) (name : String) :
    votingFallback s name = true ↔ specVotingFallback s name := by
  unfold votingFallback specVotingFallback
  split
  next ha =>
    rw [bfalse_iff]
    rintro (⟨bs, h1, -⟩ | ⟨⟨bs, h1, -⟩, -⟩) <;> rw [ha] at h1 <;> exact Res.noConfusion h1
  next bs ha =>
    split
    next hg =>
      rw [btrue_iff]
      exact Or.inl ⟨bs, ha, (genScan_found_iff _ bs).mp hg⟩
    next hg =>
      rw [bfalse_iff]
      rintro (⟨bs2, h1, hfh⟩ | ⟨⟨bs2, h1, hmiss⟩, -⟩) <;> rw [ha] at h1 <;>
        obtain rfl := Res.val.inj h1
      · exact not_FirstHit_of_aborted hg hfh
      · exact not_AllMiss_of_aborted hg hmiss
    next hg =>
      split
      next hh =>
        rw [bfalse_iff]
        rintro (⟨bs2, h1, hfh⟩ | ⟨-, hs, h2, -⟩)
        · rw [ha] at h1
          obtain rfl := Res.val.inj h1
          exact not_FirstHit_of_notFound hg hfh
        · rw [hh] at h2
          exact Res.noConfusion h2
      next hs hh =>
        split
        next hgh =>
          rw [btrue_iff]
          exact Or.inr ⟨⟨bs, ha, (genScan_notFound_iff _ bs).mp hg⟩, hs, hh,
            (genScan_found_iff _ hs).mp hgh⟩
        next hgh =>
          rw [bfalse_iff]
          rintro (⟨bs2, h1, hfh⟩ | ⟨-, hs2, h2, hfh⟩)
          · rw [ha] at h1
            obtain rfl := Res.val.inj h1
            exact not_FirstHit_of_notFound hg hfh
          · rw [hh] at h2
            obtain rfl := Res.val.inj h2
            exact not_FirstHit_of_notFound hgh hfh
        next hgh =>
          rw [bfalse_iff]
          rintro (⟨bs2, h1, hfh⟩ | ⟨-, hs2, h2, hfh⟩)
          · rw [ha] at h1
            obtain rfl := Res.val.inj h1
            exact not_FirstHit_of_notFound hg hfh
          · rw [hh] at h2
            obtain rfl := Res.val.inj h2
            exact not_FirstHit_of_aborted hgh hfh

theorem votingDetected_iff (s : Snapshot) (name : String) :
    votingDetected s name = true ↔ specVoting s name := by
  unfold votingDetected specVoting ExactMiss
  split
  next he =>
    rw [bfalse_iff]
    rintro (⟨e, h1, -⟩ | ⟨(h1 | ⟨e, h1, -⟩), -⟩) <;> rw [he] at h1 <;>
      exact Res.noConfusion h1
  next he =>
    rw [votingFallback_iff]
    constructor
    · intro h
      exact Or.inr ⟨Or.inl he, h⟩
    · rintro (⟨e, h1, -⟩ | ⟨-, h2⟩)
      · rw [he] at h1
        exact Option.noConfusion (Res.val.inj h1)
      · exact h2
  next e he =>
    split
    next hv =>
      rw [bfalse_iff]
      rintro (⟨e2, h1, h2⟩ | ⟨(h1 | ⟨e2, h1, h2⟩), -⟩)
      · rw [he] at h1
        obtain rfl := Option.some.inj (Res.val.inj h1)
        rw [hv] at h2
        exact Res.noConfusion h2
      · rw [he] at h1
        exact Option.noConfusion (Res.val.inj h1)
      · rw [he] at h1
        obtain rfl := Option.some.inj (Res.val.inj h1)
        rw [hv] at h2
        exact Res.noConfusion h2
    next hv =>
      rw [btrue_iff]
      exact Or.inl ⟨e, he, hv⟩
    next hv =>
      rw [votingFallback_iff]
      constructor
      · intro h
        exact Or.inr ⟨Or.inr ⟨e, he, hv⟩, h⟩
      · rintro (⟨e2, h1, h2⟩ | ⟨-, h2⟩)
        · rw [he] at h1
          obtain rfl := Option.some.inj (Res.val.inj h1)
          rw [hv] at h2
          exact absurd (Res.val.inj h2) (by simp)
        · exact h2

/-- C6: for every snapshot the classifier returns one of the five page
states and never raises (it is a total function of the snapshot, with
every probe exception handled inside its own test), and it returns
`Unknown` exactly when no test matches: a raising probe counts as a
non-match for its own test only and never forces `Unknown` while some
other test cleanly matches. -/
theorem claim_C6_classifier_total_fault_isolated (s : Snapshot) (name : String) :
    (detectPageState s name = PageState.voting ∨
     detectPageState s name = PageState.confirmation ∨
     detectPageState s name = PageState.error ∨
     detectPageState s name = PageState.loginRequired ∨
     detectPageState s name = PageState.unknown) ∧
    (detectPageState s name = PageState.unknown ↔
      ¬ specLogin s ∧ ¬ specError s ∧ ¬ specConfirmation s ∧ ¬ specVoting s name) := by
  constructor
  · cases h : detectPageState s name <;> simp
  · unfold detectPageState
    by_cases h1 : loginUrlDetected s = true
    · simp only [h1, if_true]
      exact iff_of_false (by decide) (by rintro ⟨hnl, -⟩; exact hnl (Or.inl h1))
    · simp only [h1, if_false]
      by_cases h2 : loginTextDetected s = true
      · simp only [h2, if_true]
        refine iff_of_false (by decide) ?_
        rintro ⟨hnl, -⟩
        exact hnl (Or.inr ((loginTextDetected_iff s).mp h2))
      · simp only [h2, if_false]
        by_cases h3 : errorDetected s = true
        · simp only [h3, if_true]
          refine iff_of_false (by decide) ?_
          rintro ⟨-, hne, -⟩
          exact hne ((errorDetected_iff s).mp h3)
        · simp only [h3, if_false]
          by_cases h4 : confTextDetected s = true
          · simp only [h4, if_true]
            refine iff_of_false (by decide) ?_
            rintro ⟨-, -, hnc, -⟩
            exact hnc (Or.inl ((confTextDetected_iff s).mp h4))
          · simp only [h4, if_false]
            by_cases h5 : voteAgainDetected s = true
            · simp only [h5, if_true]
              refine iff_of_false (by decide) ?_
              rintro ⟨-, -, hnc, -⟩
              exact hnc (Or.inr ((voteAgainDetected_iff s).mp h5))
            · simp only [h5, if_false]
              by_cases h6 : votingDetected s name = true
              · simp only [h6, if_true]
                refine iff_of_false (by decide) ?_
                rintro ⟨-, -, -, hnv⟩
                exact hnv ((votingDetected_iff s name).mp h6)
              · simp only [h6, if_false]
                refine iff_of_true rfl ⟨?_, ?_, ?_, ?_⟩
                · rintro (h | hex)
                  · exact h1 h
                  · exact h2 ((loginTextDetected_iff s).mpr hex)
                · intro h
                  exact h3 ((errorDetected_iff s).mpr h)
                · rintro (hc | hv)
                  · exact h4 ((confTextDetected_iff s).mpr hc)
                  · exact h5 ((voteAgainDetected_iff s).mpr hv)
                · intro h
                  exact h6 ((votingDetected_iff s name).mpr h)

/-- C3: a snapshot matching a login-provider pattern (in the URL or in a
successfully probed body text) while a visible voting control for the
target label is present classifies as `LoginRequired`, never as
`Voting` — the login test runs first and short-circuits the rest. -/
theorem claim_C3_login_priority (s : Snapshot) (name : String)
    (hLogin : specLogin s)
    (_hControl : ∃ e, s.exactBtn = Res.val (some e) ∧ e.visible = Res.val true) :
    detectPageState s name = PageState.loginRequired ∧
      detectPageState s name ≠ PageState.voting := by
  have hlr : detectPageState s name = PageState.loginRequired := by
    unfold detectPageState
    rcases hLogin with h | hex
    · simp [h]
    · have h2 : loginTextDetected s = true := (loginTextDetected_iff s).mpr hex
      by_cases h1 : loginUrlDetected s = true
      · simp [h1]
      · simp [h1, h2]
  refine ⟨hlr, ?_⟩
  rw [hlr]
  decide

/-- Witness for C3: a snapshot on a Google login URL with a visible,
enabled "Alice" voting control still in the DOM classifies as
`LoginRequired` and not as `Voting`. -/
theorem claim_C3_witness :
    specLogin snapLoginAndVoting ∧
    (∃ e, snapLoginAndVoting.exactBtn = Res.val (some e) ∧
      e.visible = Res.val true) ∧
    detectPageState snapLoginAndVoting "Alice" = PageState.loginRequired ∧
      detectPageState snapLoginAndVoting "Alice" ≠ PageState.voting := by
  have hL : specLogin snapLoginAndVoting := Or.inl (by decide)
  have hC : ∃ e, snapLoginAndVoting.exactBtn = Res.val (some e) ∧
      e.visible = Res.val true := ⟨aliceEnabledBtn, rfl, rfl⟩
  exact ⟨hL, hC, claim_C3_login_priority snapLoginAndVoting "Alice" hL hC⟩

/-- C5 (amended): the label-match step of the classifier requires the
exact-label control to be present and visible but never consults
`is_enabled`; whenever the exact button is returned and probed visible
and no earlier test matches, the classifier returns `Voting` — with no
hypothesis at all on the control's enabled state. -/
theorem claim_C5_voting_visible_no_enabled_check (s : Snapshot) (name : String) (e : Elem)
    (hbtn : s.exactBtn = Res.val (some e)) (hvis : e.visible = Res.val true)
    (h1 : loginUrlDetected s = false) (h2 : loginTextDetected s = false)
    (h3 : errorDetected s = false) (h4 : confTextDetected s = false)
    (h5 : voteAgainDetected s = false) :
    detectPageState s name = PageState.voting := by
  have h6 : votingDetected s name = true := by
    unfold votingDetected
    simp [hbtn, hvis]
  unfold detectPageState
  simp [h1, h2, h3, h4, h5, h6]

/-- Witness for C5 (amended): target label "Alice" and a snapshot with a
visible, enabled control labeled exactly "Alice" and no error or login
markers classify as `Voting`. -/
theorem claim_C5_witness :
    snapEnabledAlice.exactBtn = Res.val (some aliceEnabledBtn) ∧
    aliceEnabledBtn.enabled = Res.val true ∧
    detectPageState snapEnabledAlice "Alice" = PageState.voting :=
  ⟨rfl, rfl,
    claim_C5_voting_visible_no_enabled_check snapEnabledAlice "Alice" aliceEnabledBtn
      rfl rfl rfl rfl rfl rfl rfl⟩

/-- Counterexample for C5 as stated: a snapshot whose only label-matching
control is visible but disabled is still classified `Voting` by the
label-match step — the classifier never checks `is_enabled`. -/
theorem claim_C5_counterexample :
    detectPageState snapDisabledAlice "Alice" = PageState.voting ∧
    snapDisabledAlice.exactBtn = Res.val (some aliceDisabledBtn) ∧
    aliceDisabledBtn.enabled = Res.val false := by
  refine ⟨?_, rfl, rfl⟩
  decide

theorem stepWorker_conf_fail_fix (w : Worker) (it : Iter)
    (hs : it.state = PageState.confirmation) (hc : it.clickOk = false)
    (hf : w.lastConfirmationDetected = true) (he : w.consecutiveErrors = 0) :
    stepWorker w it = w := by
  cases w
  unfold stepWorker
  rw [hs]
  simp_all

theorem runWorker_conf_fail_fix (its : List Iter) (w : Worker)
    (h : ∀ it ∈ its, it.state = PageState.confirmation ∧ it.clickOk = false)
    (hf : w.lastConfirmationDetected = true) (he : w.consecutiveErrors = 0) :
    runWorker w its = w := by
  induction its with
  | nil => rfl
  | cons a rest ih =>
    obtain ⟨hs, hc⟩ := h a (List.mem_cons_self a rest)
    have hstep := stepWorker_conf_fail_fix w a hs hc hf he
    show runWorker (stepWorker w a) rest = w
    rw [hstep]
    exact ih (fun it hit => h it (List.mem_cons_of_mem a hit))

/-- C2 (amended): across any non-empty run of consecutive iterations
that all classify as `Confirmation` with no successful `click_vote_again`
in between, the worker's `vote_count` increases exactly once when the
"already counted" flag is unset at the start of the run, and not at all
when the flag is still set from an earlier confirmation (the flag is not
cleared by `Error`, `Unknown` or `LoginRequired` iterations, so such a
run can start with the flag set). -/
theorem claim_C2_confirmation_counted_once (w : Worker) (its : List Iter)
    (hne : its ≠ [])
    (h : ∀ it ∈ its, it.state = PageState.confirmation ∧ it.clickOk = false) :
    (runWorker w its).voteCount =
      w.voteCount + (if w.lastConfirmationDetected then 0 else 1) := by
  cases its with
  | nil => exact absurd rfl hne
  | cons a rest =>
    obtain ⟨hs, hc⟩ := h a (List.mem_cons_self a rest)
    have hrest : ∀ it ∈ rest, it.state = PageState.confirmation ∧ it.clickOk = false :=
      fun it hit => h it (List.mem_cons_of_mem a hit)
    show (runWorker (stepWorker w a) rest).voteCount = _
    cases hf : w.lastConfirmationDetected with
    | true =>
      have hstep : stepWorker w a = { w with consecutiveErrors := 0 } := by
        cases w
        unfold stepWorker
        rw [hs]
        simp_all
      rw [hstep, runWorker_conf_fail_fix rest _ hrest (by simp_all) rfl]
      simp
    | false =>
      have hstep : stepWorker w a =
          { w with
            consecutiveErrors := 0
            voteCount := w.voteCount + 1
            lastConfirmationDetected := true } := by
        cases w
        unfold stepWorker
        rw [hs]
        simp_all
      rw [hstep, runWorker_conf_fail_fix rest _ hrest rfl rfl]
      simp

/-- Witness for C2 (amended): a fresh worker seeing two consecutive
`Confirmation` iterations with failing "vote again" clicks counts
exactly one vote. -/
theorem claim_C2_witness :
    ([⟨PageState.confirmation, true, false⟩,
      ⟨PageState.confirmation, true, false⟩] : List Iter) ≠ [] ∧
    (runWorker Worker.init
      [⟨PageState.confirmation, true, false⟩,
       ⟨PageState.confirmation, true, false⟩]).voteCount =
      Worker.init.voteCount + (if Worker.init.lastConfirmationDetected then 0 else 1) := by
  constructor
  · decide
  · exact claim_C2_confirmation_counted_once Worker.init _ (by decide) (by decide)

/-- Counterexample for C2 as stated: after a confirmation whose
`click_vote_again` failed and an intervening `Error` iteration (which
does not clear the "already counted" flag), a further run of two
consecutive `Confirmation` iterations with no successful click increments
`vote_count` zero times, not exactly once. -/
theorem claim_C2_counterexample :
    (runWorker Worker.init
       [⟨PageState.confirmation, true, false⟩, ⟨PageState.error, true, false⟩]).voteCount
      = 1 ∧
    (runWorker
       (runWorker Worker.init
         [⟨PageState.confirmation, true, false⟩, ⟨PageState.error, true, false⟩])
       [⟨PageState.confirmation, true, false⟩,
        ⟨PageState.confirmation, true, false⟩]).voteCount
      = (runWorker Worker.init
         [⟨PageState.confirmation, true, false⟩, ⟨PageState.error, true, false⟩]).voteCount := by
  constructor <;> decide

/-- C4 (amended): once the "already counted" flag is set, an iteration
clears it exactly when `click_vote_again` succeeds in the `Confirmation`
branch or when the loop re-enters the `Voting` branch (which resets the
flag for the new vote cycle); no other transition clears it. -/
theorem claim_C4_flag_cleared_on_click_or_voting (w : Worker) (it : Iter)
    (hf : w.lastConfirmationDetected = true) :
    (stepWorker w it).lastConfirmationDetected = false ↔
      (it.state = PageState.confirmation ∧ it.clickOk = true) ∨
        it.state = PageState.voting := by
  cases w
  cases hs : it.state <;> cases hco : it.clickOk <;> unfold stepWorker <;>
    rw [hs] <;> simp_all

/-- Witness for C4 (amended): a worker with the flag set that sees a
`Confirmation` iteration with a successful click has the flag cleared. -/
theorem claim_C4_witness :
    (⟨3, true, 0⟩ : Worker).lastConfirmationDetected = true ∧
    ((stepWorker ⟨3, true, 0⟩ ⟨PageState.confirmation, true, true⟩).lastConfirmationDetected
        = false ↔
      ((⟨PageState.confirmation, true, true⟩ : Iter).state = PageState.confirmation ∧
        (⟨PageState.confirmation, true, true⟩ : Iter).clickOk = true) ∨
        (⟨PageState.confirmation, true, true⟩ : Iter).state = PageState.voting) :=
  ⟨rfl, claim_C4_flag_cleared_on_click_or_voting ⟨3, true, 0⟩
    ⟨PageState.confirmation, true, true⟩ rfl⟩

/-- Counterexample for C4 as stated: the `Voting` branch also clears the
"already counted" flag — a worker with the flag set that classifies the
page as `Voting` leaves the iteration with the flag unset, even though
no `click_vote_again` call succeeded (the claim allows clearing only at
a successful click). -/
theorem claim_C4_counterexample :
    (⟨1, true, 0⟩ : Worker).lastConfirmationDetected = true ∧
    (stepWorker ⟨1, true, 0⟩ ⟨PageState.voting, true, false⟩).lastConfirmationDetected
      = false ∧
    (⟨PageState.voting, true, false⟩ : Iter).state ≠ PageState.confirmation := by
  refine ⟨rfl, ?_, by decide⟩
  decide

theorem fleetRun_append (fs : FleetState) (evs : List FleetEvent) (e : FleetEvent) :
    fleetRun fs (evs ++ [e]) = fleetStep (fleetRun fs evs) e := by
  unfold fleetRun
  rw [List.foldl_append]
  rfl

/-- C1: after any interleaving of per-worker increments and completion
callbacks, from any starting state, the state immediately after a
completion handler returns satisfies `total_votes = sum of all workers'
vote_count`; moreover the handler's result is independent of the
previous `total_votes` — it recomputes the sum and never applies an
increment or delta. -/
theorem claim_C1_total_is_sum_after_completion (fs : FleetState) (evs : List FleetEvent) :
    (fleetRun fs (evs ++ [FleetEvent.complete])).totalVotes =
      (fleetRun fs (evs ++ [FleetEvent.complete])).counts.sum ∧
    ∀ t : Nat, (onVoteCompleted { fs with totalVotes := t }).totalVotes =
      (onVoteCompleted fs).totalVotes := by
  constructor
  · rw [fleetRun_append]
    rfl
  · intro t
    rfl

theorem fleetRun_counts_eq (evs : List FleetEvent) :
    ∀ s s' : FleetState, s.counts = s'.counts → FleetEvent.complete ∈ evs →
      fleetRun s evs = fleetRun s' evs := by
  induction evs with
  | nil =>
    intro s s' _ h
    simp at h
  | cons e rest ih =>
    intro s s' hc hm
    cases e with
    | complete =>
      show fleetRun (fleetStep s .complete) rest = fleetRun (fleetStep s' .complete) rest
      have hstep : fleetStep s .complete = fleetStep s' .complete := by
        cases s
        cases s'
        unfold fleetStep onVoteCompleted
        simp_all
      rw [hstep]
    | incr i =>
      show fleetRun (fleetStep s (.incr i)) rest = fleetRun (fleetStep s' (.incr i)) rest
      have hm' : FleetEvent.complete ∈ rest := by
        rcases List.mem_cons.mp hm with h | h
        · exact FleetEvent.noConfusion h
        · exact h
      exact ih _ _ (by simp [fleetStep, hc]) hm'

/-- C10: `total_votes` is seeded at startup from the persisted counter
while every worker's `vote_count` starts at 0; after any event sequence
containing at least one completion, the total is the same as if the
seed had been 0 — the first completion handler overwrites the seeded
total with the sum of the workers' counts, discarding any positive
persisted seed rather than accumulating onto it. -/
theorem claim_C10_seed_discarded_after_first_completion
    (seed numTabs : Nat) (evs : List FleetEvent)
    (_hseed : 0 < seed) (hcomp : FleetEvent.complete ∈ evs) :
    (fleetRun (FleetState.init seed numTabs) evs).totalVotes =
      (fleetRun (FleetState.init 0 numTabs) evs).totalVotes := by
  have h := fleetRun_counts_eq evs (FleetState.init seed numTabs)
    (FleetState.init 0 numTabs) rfl hcomp
  rw [h]

/-- Witness for C10: with a persisted seed of 5 and two tabs, after one
worker increment and the first completion callback, the total equals
the total of a session seeded with 0. -/
theorem claim_C10_witness :
    0 < 5 ∧
    FleetEvent.complete ∈ [FleetEvent.incr 0, FleetEvent.complete] ∧
    (fleetRun (FleetState.init 5 2) [FleetEvent.incr 0, FleetEvent.complete]).totalVotes =
      (fleetRun (FleetState.init 0 2) [FleetEvent.incr 0, FleetEvent.complete]).totalVotes :=
  ⟨by decide, by decide,
    claim_C10_seed_discarded_after_first_completion 5 2 _ (by decide) (by decide)⟩

theorem voteAgainClickSel_iff (b : Res (Option Elem)) :
    voteAgainClickSel b = true ↔ ∃ e, b = Res.val (some e) ∧ e.clickOk = Res.val () := by
  unfold voteAgainClickSel
  cases b with
  | exn => simp
  | val ob =>
    cases ob with
    | none => simp
    | some e =>
      cases hv : e.clickOk with
      | exn => simp [hv]
      | val u =>
        cases u
        simp [hv]

/-- C8 (amended): `click_vote_again` walks the selector, text and XPath
fallback stages in order and clicks the first candidate a stage finds —
with no visibility or enabled check at any stage; it returns `true`
exactly when some stage's click call succeeds (for the text stage: the
first text-matching button, reached through clean misses, clicks
successfully) and `false` when every fallback is exhausted. -/
theorem claim_C8_no_visibility_or_enabled_check (s : Snapshot) :
    clickVoteAgain s = true ↔
      (∃ e, (s.voteAgainBtn1 = Res.val (some e) ∨ s.voteAgainBtn2 = Res.val (some e) ∨
        s.voteAgainBtn3 = Res.val (some e)) ∧ e.clickOk = Res.val ()) ∨
      (∃ bs, s.allButtons = Res.val bs ∧ FirstHit voteAgainTextStep bs) ∨
      (∃ e, s.xpathVoteAgain = Res.val (some e) ∧ e.clickOk = Res.val ()) := by
  unfold clickVoteAgain
  by_cases h1 : voteAgainClickSel s.voteAgainBtn1 = true
  · rw [if_pos h1, btrue_iff]
    obtain ⟨e, he, hc⟩ := (voteAgainClickSel_iff _).mp h1
    exact Or.inl ⟨e, Or.inl he, hc⟩
  · rw [if_neg h1]
    by_cases h2 : voteAgainClickSel s.voteAgainBtn2 = true
    · rw [if_pos h2, btrue_iff]
      obtain ⟨e, he, hc⟩ := (voteAgainClickSel_iff _).mp h2
      exact Or.inl ⟨e, Or.inr (Or.inl he), hc⟩
    · rw [if_neg h2]
      by_cases h3 : voteAgainClickSel s.voteAgainBtn3 = true
      · rw [if_pos h3, btrue_iff]
        obtain ⟨e, he, hc⟩ := (voteAgainClickSel_iff _).mp h3
        exact Or.inl ⟨e, Or.inr (Or.inr he), hc⟩
      · rw [if_neg h3]
        split
        next hab =>
          rw [show voteAgainClickXPath s = voteAgainClickSel s.xpathVoteAgain from rfl,
            voteAgainClickSel_iff]
          constructor
          · intro h
            exact Or.inr (Or.inr h)
          · rintro (⟨e, (he | he | he), hc⟩ | ⟨bs, hbs, -⟩ | h)
            · exact absurd ((voteAgainClickSel_iff _).mpr ⟨e, he, hc⟩) h1
            · exact absurd ((voteAgainClickSel_iff _).mpr ⟨e, he, hc⟩) h2
            · exact absurd ((voteAgainClickSel_iff _).mpr ⟨e, he, hc⟩) h3
            · rw [hab] at hbs
              exact Res.noConfusion hbs
            · exact h
        next bs hab =>
          split
          next hg =>
            rw [btrue_iff]
            exact Or.inr (Or.inl ⟨bs, hab, (genScan_found_iff _ bs).mp hg⟩)
          next hg =>
            rw [show voteAgainClickXPath s = voteAgainClickSel s.xpathVoteAgain from rfl,
              voteAgainClickSel_iff]
            constructor
            · intro h
              exact Or.inr (Or.inr h)
            · rintro (⟨e, (he | he | he), hc⟩ | ⟨bs2, hbs, hfh⟩ | h)
              · exact absurd ((voteAgainClickSel_iff _).mpr ⟨e, he, hc⟩) h1
              · exact absurd ((voteAgainClickSel_iff _).mpr ⟨e, he, hc⟩) h2
              · exact absurd ((voteAgainClickSel_iff _).mpr ⟨e, he, hc⟩) h3
              · rw [hab] at hbs
                obtain rfl := Res.val.inj hbs
                have hfound := (genScan_found_iff _ bs).mpr hfh
                rw [hg] at hfound
                exact ScanOut.noConfusion hfound
              · exact h
          next hg =>
            rw [show voteAgainClickXPath s = voteAgainClickSel s.xpathVoteAgain from rfl,
              voteAgainClickSel_iff]
            constructor
            · intro h
              exact Or.inr (Or.inr h)
            · rintro (⟨e, (he | he | he), hc⟩ | ⟨bs2, hbs, hfh⟩ | h)
              · exact absurd ((voteAgainClickSel_iff _).mpr ⟨e, he, hc⟩) h1
              · exact absurd ((voteAgainClickSel_iff _).mpr ⟨e, he, hc⟩) h2
              · exact absurd ((voteAgainClickSel_iff _).mpr ⟨e, he, hc⟩) h3
              · rw [hab] at hbs
                obtain rfl := Res.val.inj hbs
                have hfound := (genScan_found_iff _ bs).mpr hfh
                rw [hg] at hfound
                exact ScanOut.noConfusion hfound
              · exact h

/-- Counterexample for C8 as stated: the first selector stage returns an
invisible, disabled "Votar Novamente" button and `click_vote_again`
clicks it and returns `true` — no stage rejects invisible or disabled
candidates. -/
theorem claim_C8_counterexample :
    clickVoteAgain snapHiddenVoteAgain = true ∧
    snapHiddenVoteAgain.voteAgainBtn1 = Res.val (some hiddenVoteAgainBtn) ∧
    hiddenVoteAgainBtn.visible = Res.val false ∧
    hiddenVoteAgainBtn.enabled = Res.val false :=
  ⟨by decide, rfl, rfl, rfl⟩

theorem replaceFirstSession_length (l : List Session) (start : String) (info : Session) :
    (replaceFirstSession l start info).length = l.length := by
  induction l with
  | nil => rfl
  | cons s rest ih =>
    unfold replaceFirstSession
    by_cases h : (s.dataInicio == start) = true
    · simp [h]
    · simp [h, ih]

theorem replaceFirstSession_map_dataInicio (l : List Session) (start : String)
    (info : Session) (hinfo : info.dataInicio = start) :
    (replaceFirstSession l start info).map (fun s => s.dataInicio) =
      l.map (fun s => s.dataInicio) := by
  induction l with
  | nil => rfl
  | cons s rest ih =>
    unfold replaceFirstSession
    by_cases h : (s.dataInicio == start) = true
    · have hs : s.dataInicio = start := by simpa using h
      simp [h, hinfo, hs]
    · simp [h, ih]

theorem replaceFirstSession_mem (l : List Session) (start : String) (info : Session)
    (h : l.any (fun s => s.dataInicio == start) = true) :
    info ∈ replaceFirstSession l start info := by
  induction l with
  | nil => simp at h
  | cons s rest ih =>
    unfold replaceFirstSession
    by_cases hb : (s.dataInicio == start) = true
    · simp [hb]
    · have h' : rest.any (fun s => s.dataInicio == start) = true := by
        simp only [List.any_cons, Bool.or_eq_true] at h
        rcases h with h | h
        · exact absurd h hb
        · exact h
      simp only [hb, if_false]
      exact List.mem_cons_of_mem s (ih h')

theorem nodup_map_append_single (l : List Session) (info : Session)
    (hnd : (l.map (fun s => s.dataInicio)).Nodup)
    (hnotin : info.dataInicio ∉ l.map (fun s => s.dataInicio)) :
    ((l ++ [info]).map (fun s => s.dataInicio)).Nodup := by
  rw [List.map_append, List.nodup_append]
  refine ⟨hnd, by simp, ?_⟩
  intro a ha hb
  simp only [List.map_cons, List.map_nil, List.mem_singleton] at hb
  rw [hb] at ha
  exact hnotin ha

theorem nodup_map_drop (l : List Session) (k : Nat)
    (hnd : (l.map (fun s => s.dataInicio)).Nodup) :
    ((l.drop k).map (fun s => s.dataInicio)).Nodup :=
  hnd.sublist ((List.drop_sublist k l).map (fun s => s.dataInicio))

theorem mem_drop_append_single (l : List Session) (info : Session) (k : Nat)
    (hk : k ≤ l.length) : info ∈ (l ++ [info]).drop k := by
  rw [List.drop_append_of_le_length hk]
  simp

/-- C9: starting from a persisted statistics object satisfying its own
save-invariants (at most 100 session records, one per start timestamp),
every `_save_vote_stats` leaves at most 100 records, keeps start
timestamps unique, replaces (rather than appends) the record sharing the
current session's start timestamp — leaving the list length unchanged —
keeps the new session's record among those persisted when the session
has votes, and sets the historical maximum to the max of its previous
value and the current total, so it never decreases. -/
theorem claim_C9_stats_persistence (stats : Stats) (totalVotes sessionStartVotes : Nat)
    (votesPerTab : List Nat) (sessionStartTime : Option String)
    (nowStr participant : String)
    (hnd : (stats.sessoes.map (fun s => s.dataInicio)).Nodup)
    (hlen : stats.sessoes.length ≤ 100) :
    (saveVoteStats stats totalVotes sessionStartVotes votesPerTab sessionStartTime
        nowStr participant).sessoes.length ≤ 100 ∧
    ((saveVoteStats stats totalVotes sessionStartVotes votesPerTab sessionStartTime
        nowStr participant).sessoes.map (fun s => s.dataInicio)).Nodup ∧
    (saveVoteStats stats totalVotes sessionStartVotes votesPerTab sessionStartTime
        nowStr participant).totalHistorico = max stats.totalHistorico totalVotes ∧
    stats.totalHistorico ≤ (saveVoteStats stats totalVotes sessionStartVotes votesPerTab
        sessionStartTime nowStr participant).totalHistorico ∧
    (∀ start, sessionStartTime = some start →
      stats.sessoes.any (fun s => s.dataInicio == start) = true →
      (saveVoteStats stats totalVotes sessionStartVotes votesPerTab sessionStartTime
        nowStr participant).sessoes.length = stats.sessoes.length) ∧
    (∀ start, sessionStartTime = some start →
      ((totalVotes : Int) - (sessionStartVotes : Int) > 0 ∨ votesPerTab.sum > 0) →
      mkSessionInfo totalVotes sessionStartVotes votesPerTab start nowStr participant
        ∈ (saveVoteStats stats totalVotes sessionStartVotes votesPerTab sessionStartTime
            nowStr participant).sessoes) := by
  unfold saveVoteStats
  cases sessionStartTime with
  | none =>
    dsimp only
    exact ⟨hlen, hnd, rfl, le_max_left _ _,
      fun start h => Option.noConfusion h, fun start h => Option.noConfusion h⟩
  | some start0 =>
    dsimp only
    by_cases hcond : ((totalVotes : Int) - (sessionStartVotes : Int) > 0 ∨
        votesPerTab.sum > 0)
    · rw [if_pos hcond]
      by_cases hex : (stats.sessoes.any (fun s => s.dataInicio == start0)) = true
      · rw [if_pos hex]
        have hlen1 : (replaceFirstSession stats.sessoes start0
            (mkSessionInfo totalVotes sessionStartVotes votesPerTab start0 nowStr
              participant)).length = stats.sessoes.length :=
          replaceFirstSession_length _ _ _
        rw [if_neg (by rw [hlen1]; omega)]
        refine ⟨?_, ?_, rfl, le_max_left _ _, ?_, ?_⟩
        · rw [hlen1]; exact hlen
        · rw [replaceFirstSession_map_dataInicio stats.sessoes start0
            (mkSessionInfo totalVotes sessionStartVotes votesPerTab start0 nowStr
              participant) rfl]
          exact hnd
        · intro start h hany
          exact hlen1
        · intro start h hc2
          obtain rfl := Option.some.inj h
          exact replaceFirstSession_mem _ _ _ hex
      · rw [if_neg hex]
        have hnotin : (mkSessionInfo totalVotes sessionStartVotes votesPerTab start0
            nowStr participant).dataInicio ∉
              stats.sessoes.map (fun s => s.dataInicio) := by
          intro hmem
          obtain ⟨s, hsmem, hseq⟩ := List.mem_map.mp hmem
          exact hex (List.any_eq_true.mpr ⟨s, hsmem, beq_iff_eq.mpr hseq⟩)
        by_cases hov : (stats.sessoes ++ [mkSessionInfo totalVotes sessionStartVotes
            votesPerTab start0 nowStr participant]).length > 100
        · rw [if_pos hov]
          rw [List.length_append, List.length_singleton] at hov
          refine ⟨?_, ?_, rfl, le_max_left _ _, ?_, ?_⟩
          · rw [List.length_drop, List.length_append, List.length_singleton]
            omega
          · exact nodup_map_drop _ _ (nodup_map_append_single _ _ hnd hnotin)
          · intro start h hany
            obtain rfl := Option.some.inj h
            exact absurd hany hex
          · intro start h hc2
            obtain rfl := Option.some.inj h
            refine mem_drop_append_single _ _ _ ?_
            rw [List.length_append, List.length_singleton]
            omega
        · rw [if_neg hov]
          rw [List.length_append, List.length_singleton] at hov
          refine ⟨?_, ?_, rfl, le_max_left _ _, ?_, ?_⟩
          · rw [List.length_append, List.length_singleton]
            omega
          · exact nodup_map_append_single _ _ hnd hnotin
          · intro start h hany
            obtain rfl := Option.some.inj h
            exact absurd hany hex
          · intro start h hc2
            obtain rfl := Option.some.inj h
            exact List.mem_append_right _ (List.mem_singleton_self _)
    · rw [if_neg hcond]
      refine ⟨hlen, hnd, rfl, le_max_left _ _, ?_, ?_⟩
      · intro start h hany
        rfl
      · intro start h hc2
        obtain rfl := Option.some.inj h
        exact absurd hc2 hcond

/-- Witness for C9: a concrete save onto an empty statistics object with
one vote in the session appends one deduplicated record and raises the
historical maximum. -/
theorem claim_C9_witness :
    ((⟨0, []⟩ : Stats).sessoes.map (fun s => s.dataInicio)).Nodup ∧
    (⟨0, []⟩ : Stats).sessoes.length ≤ 100 ∧
    (saveVoteStats ⟨0, []⟩ 1 0 [1] (some "2024-01-01 10:00:00") "2024-01-01 10:05:00"
        "Alice").sessoes.length ≤ 100 ∧
    ((saveVoteStats ⟨0, []⟩ 1 0 [1] (some "2024-01-01 10:00:00") "2024-01-01 10:05:00"
        "Alice").sessoes.map (fun s => s.dataInicio)).Nodup ∧
    (saveVoteStats ⟨0, []⟩ 1 0 [1] (some "2024-01-01 10:00:00") "2024-01-01 10:05:00"
        "Alice").totalHistorico = max (⟨0, []⟩ : Stats).totalHistorico 1 := by
  have h := claim_C9_stats_persistence ⟨0, []⟩ 1 0 [1] (some "2024-01-01 10:00:00")
    "2024-01-01 10:05:00" "Alice" (by simp) (by simp)
  exact ⟨by simp, by simp, h.1, h.2.1, h.2.2.1⟩

theorem focusDelay_le (p : CapPoll) (focused : Bool) : focusDelay p focused ≤ 5 := by
  unfold focusDelay
  split_ifs <;> omega

theorem gateInvisibleCheck_extra_le (p : CapPoll) : (gateInvisibleCheck p).2 ≤ 10 := by
  unfold gateInvisibleCheck
  repeat' split
  all_goals simp

theorem iterCheck_extra_le (p : CapPoll) : (iterCheck p).2 ≤ 10 := by
  unfold iterCheck
  repeat' split
  all_goals first
    | simp
    | exact gateInvisibleCheck_extra_le p

theorem iterCheck_false_of_noMarker (p : CapPoll) (h : noMarker p = true) :
    (iterCheck p).1 = false := by
  unfold noMarker at h
  simp only [Bool.and_eq_true] at h
  obtain ⟨⟨⟨⟨h1, h2⟩, h3⟩, h4⟩, h5⟩ := h
  have hta : tokenTaName p ≠ some true := by
    unfold tokenTaName
    repeat' split
    all_goals simp_all
  have htb : tokenTaById p ≠ some true := by
    unfold tokenTaById
    repeat' split
    all_goals simp_all
  have hw : tokenWidget p ≠ some true := by
    unfold tokenWidget
    repeat' split
    all_goals simp_all
  have hts : textSuccess p = false := by
    unfold textSuccess
    repeat' split
    all_goals simp_all
  have hg : (gateInvisibleCheck p).1 = false := by
    unfold gateInvisibleCheck
    repeat' split
    all_goals simp_all
  unfold iterCheck
  repeat' split
  all_goals simp_all

theorem waitAux_noMarker (polls : Nat → CapPoll) (T : Nat)
    (hnm : ∀ m, noMarker (polls m) = true) :
    ∀ fuel n elapsed focused, 10 * T < elapsed + 10 * fuel → elapsed ≤ 10 * T + 25 →
      (waitAux polls (10 * T) fuel n elapsed focused).1 = false ∧
      10 * T < (waitAux polls (10 * T) fuel n elapsed focused).2 ∧
      (waitAux polls (10 * T) fuel n elapsed focused).2 ≤ 10 * T + 25 := by
  intro fuel
  induction fuel with
  | zero =>
    intro n elapsed focused h2 h3
    unfold waitAux
    exact ⟨rfl, by omega, h3⟩
  | succ fuel ih =>
    intro n elapsed focused h2 h3
    unfold waitAux
    by_cases hto : 10 * T < elapsed
    · rw [if_pos hto]
      exact ⟨rfl, hto, h3⟩
    · rw [if_neg hto]
      dsimp only
      have hfst := iterCheck_false_of_noMarker (polls n) (hnm n)
      have hext := iterCheck_extra_le (polls n)
      have hfd := focusDelay_le (polls n) focused
      rcases hic : iterCheck (polls n) with ⟨b, extra⟩
      rw [hic] at hfst hext
      dsimp only at hfst hext
      subst hfst
      exact ih (n + 1) (elapsed + focusDelay (polls n) focused + extra + 10)
        (focused || focusCond (polls n)) (by omega) (by omega)

/-- C7 (amended): when no resolution marker ever appears (no non-empty
token, no success text, no success marker after the gate turns
invisible — transient probe errors included), the wait returns `false`
strictly after the timeout `T` (in seconds; the model counts
deciseconds), but its overshoot can exceed one 1-second poll interval:
each final iteration may add the extra 1-second confirmation re-check
sleep taken when the gate iframe is present but invisible, plus the
one-time 0.5-second focus settle delay, so the return happens no later
than `T` + 2.5 s; it never raises and never returns `true` early. -/
theorem claim_C7_wait_false_bounded (polls : Nat → CapPoll) (T : Nat)
    (hnm : ∀ m, noMarker (polls m) = true) :
    (waitForCaptchaSolution polls T).1 = false ∧
    10 * T < (waitForCaptchaSolution polls T).2 ∧
    (waitForCaptchaSolution polls T).2 ≤ 10 * T + 25 := by
  unfold waitForCaptchaSolution
  exact waitAux_noMarker polls T hnm (T + 2) 0 0 false (by omega) (by omega)

/-- Witness for C7 (amended): with every probe raising on every poll and
a 3-second timeout, the wait returns `false` with elapsed time in
`(30, 55]` deciseconds, never raising. -/
theorem claim_C7_witness :
    (∀ m, noMarker ((fun _ : Nat => allRaisingPoll) m) = true) ∧
    ((waitForCaptchaSolution (fun _ : Nat => allRaisingPoll) 3).1 = false ∧
     10 * 3 < (waitForCaptchaSolution (fun _ : Nat => allRaisingPoll) 3).2 ∧
     (waitForCaptchaSolution (fun _ : Nat => allRaisingPoll) 3).2 ≤ 10 * 3 + 25) :=
  ⟨fun _ => rfl, claim_C7_wait_false_bounded (fun _ : Nat => allRaisingPoll) 3 (fun _ => rfl)⟩

/-- Counterexample for C7 as stated: with timeout 2 s and the hCaptcha
iframe present but invisible with no success marker on every poll, each
iteration spends 2 s (poll sleep plus the invisible-iframe re-check
sleep), so the wait returns `false` only at 4.0 s elapsed — later than
`T` plus one 1-second poll interval (3.0 s). -/
theorem claim_C7_counterexample :
    waitForCaptchaSolution (fun _ : Nat => invisibleGatePoll) 2 = (false, 40) ∧
    10 * 2 + 10 < 40 :=
  ⟨by decide, by decide⟩

end BBBVote
